import Mathlib

/-!
Verification of the format-descriptor and geometry-computation engine of
dcv-color-primitives (src/pixel_format.rs).

The Rust code is shallowly embedded: `u32` values are natural numbers with
wrapping operations taken explicitly modulo `2 ^ 32`, and `usize` values are
natural numbers with arithmetic taken modulo `2 ^ 64` (release-mode wrapping
semantics).  Slices are Lean lists; a Rust function that can panic (only via
out-of-bounds table indexing on an invalid format ordinal) is embedded as an
`Option`-returning function where `none` marks the panic.
-/

set_option autoImplicit false

namespace DcvColor

/-- Modulus of Rust `u32` arithmetic. -/
def U32 : Nat := 2 ^ 32

/-- Modulus of Rust `usize` arithmetic (64-bit target). -/
def U64 : Nat := 2 ^ 64

/-- Rust `u32::wrapping_sub` on values below `2 ^ 32`. -/
def wrapping_sub32 (a b : Nat) : Nat := (a + U32 - b % U32) % U32

/-- Rust `u32::wrapping_mul`. -/
def wrapping_mul32 (a b : Nat) : Nat := a * b % U32

/-- Rust `u32::wrapping_shr`: the shift amount is taken modulo 32. -/
def wrapping_shr32 (a s : Nat) : Nat := a >>> (s % 32)

/-- Rust `usize` multiplication with release-mode wrapping. -/
def usize_mul (a b : Nat) : Nat := a * b % U64

/-- Rust `usize` addition with release-mode wrapping. -/
def usize_add (a b : Nat) : Nat := (a + b) % U64

/-- Rust `pub const MAX_NUMBER_OF_PLANES: usize = 4;` -/
def MAX_NUMBER_OF_PLANES : Nat := 4

/-- Rust `pub const STRIDE_AUTO: usize = 0;` -/
def STRIDE_AUTO : Nat := 0

/-- Rust `pub const DEFAULT_STRIDES: [usize; MAX_NUMBER_OF_PLANES] = [STRIDE_AUTO; 4];` -/
def DEFAULT_STRIDES : List Nat := [STRIDE_AUTO, STRIDE_AUTO, STRIDE_AUTO, STRIDE_AUTO]

/-- Rust `make_pf_spec`: packs (planes, width flag, height flag, byte count). -/
def make_pf_spec (planes width height byte_count : Nat) : Nat :=
  (byte_count <<< 4) ||| (height <<< 3) ||| (width <<< 2) ||| planes

/-- Rust `make_plane_spec`: packs four 6-bit per-plane fields. -/
def make_plane_spec (plane0 plane1 plane2 plane3 : Nat) : Nat :=
  (plane3 <<< 18) ||| (plane2 <<< 12) ||| (plane1 <<< 6) ||| plane0

/-- Rust `const I_P: u32 = 32;` the sentinel marking an absent plane. -/
def I_P : Nat := 32

/-- Rust `PF_SPECS`: one packed format descriptor per format ordinal 0..12. -/
def PF_SPECS : List Nat := [
  make_pf_spec 0 0 0 4, -- Argb
  make_pf_spec 0 0 0 4, -- Bgra
  make_pf_spec 0 0 0 3, -- Bgr
  make_pf_spec 0 0 0 4, -- Rgba
  make_pf_spec 0 0 0 3, -- Rgb
  make_pf_spec 0 0 0 4, -- Bgra30
  make_pf_spec 0 0 0 4, -- Rgba30
  make_pf_spec 2 0 0 1, -- I444
  make_pf_spec 2 1 0 1, -- I422
  make_pf_spec 2 1 1 1, -- I420
  make_pf_spec 1 1 1 1, -- Nv12
  make_pf_spec 2 0 0 2, -- P410
  make_pf_spec 2 1 1 2  -- P010
]

/-- Rust `STRIDE_SPECS`: per-plane horizontal subsampling shifts (or the sentinel). -/
def STRIDE_SPECS : List Nat := [
  make_plane_spec 0 I_P I_P I_P, -- Argb
  make_plane_spec 0 I_P I_P I_P, -- Bgra
  make_plane_spec 0 I_P I_P I_P, -- Bgr
  make_plane_spec 0 I_P I_P I_P, -- Rgba
  make_plane_spec 0 I_P I_P I_P, -- Rgb
  make_plane_spec 0 I_P I_P I_P, -- Bgra30
  make_plane_spec 0 I_P I_P I_P, -- Rgba30
  make_plane_spec 0 0 0 I_P,     -- I444
  make_plane_spec 0 1 1 I_P,     -- I422
  make_plane_spec 0 1 1 I_P,     -- I420
  make_plane_spec 0 0 I_P I_P,   -- Nv12
  make_plane_spec 0 0 0 I_P,     -- P410
  make_plane_spec 0 1 1 I_P      -- P010
]

/-- Rust `HEIGHT_SPECS`: per-plane vertical subsampling shifts (or the sentinel). -/
def HEIGHT_SPECS : List Nat := [
  make_plane_spec 0 I_P I_P I_P, -- Argb
  make_plane_spec 0 I_P I_P I_P, -- Bgra
  make_plane_spec 0 I_P I_P I_P, -- Bgr
  make_plane_spec 0 I_P I_P I_P, -- Rgba
  make_plane_spec 0 I_P I_P I_P, -- Rgb
  make_plane_spec 0 I_P I_P I_P, -- Bgra30
  make_plane_spec 0 I_P I_P I_P, -- Rgba30
  make_plane_spec 0 0 0 I_P,     -- I444
  make_plane_spec 0 0 0 I_P,     -- I422
  make_plane_spec 0 1 1 I_P,     -- I420
  make_plane_spec 0 1 I_P I_P,   -- Nv12
  make_plane_spec 0 0 0 I_P,     -- P410
  make_plane_spec 0 1 1 I_P      -- P010
]

/-- Rust `get_pf_width`: the "width must be even" flag. -/
def get_pf_width (pf : Nat) : Nat := (pf >>> 2) &&& 1

/-- Rust `get_pf_height`: the "height must be even" flag. -/
def get_pf_height (pf : Nat) : Nat := (pf >>> 3) &&& 1

/-- Rust `get_pf_byte_count`: bytes per sample. -/
def get_pf_byte_count (pf : Nat) : Nat := pf >>> 4

/-- Rust `get_pf_planes`: the mandated last-plane index (plane count minus one). -/
def get_pf_planes (pf : Nat) : Nat := pf &&& 3

/-- Rust `get_plane_value`: extracts a 6-bit per-plane field. -/
def get_plane_value (bpp plane : Nat) : Nat := (bpp >>> (6 * plane)) &&& 0x3F

/-- Rust `get_plane_mask`: `(I_P != get_plane_value(bpp, plane)) as usize`. -/
def get_plane_mask (bpp plane : Nat) : Nat :=
  if get_plane_value bpp plane = I_P then 0 else 1

/-- Rust `get_plane_spec`: `dimension.wrapping_shr(get_plane_value(bpp, plane))`. -/
def get_plane_spec (dimension bpp plane : Nat) : Nat :=
  wrapping_shr32 dimension (get_plane_value bpp plane)

/-- Rust `is_compatible`; `none` marks the panic on an out-of-range format ordinal. -/
def is_compatible (pixel_format width height last_plane : Nat) : Option Bool :=
  match PF_SPECS[pixel_format]? with
  | none => none
  | some spec =>
    some (((width &&& get_pf_width spec) |||
        ((height &&& get_pf_height spec) |||
         wrapping_mul32 last_plane (wrapping_sub32 last_plane (get_pf_planes spec)))) == 0)

/-- The loop body deriving the effective per-plane stride inside
`get_buffers_size`: auto-derive when the slot is beyond the caller's slice or
holds `STRIDE_AUTO`, otherwise take the caller-supplied value. -/
def compute_stride (stride_spec byte_count width : Nat) (strides : List Nat) (i : Nat) : Nat :=
  if strides.length ≤ i ∨ strides.getD i STRIDE_AUTO = STRIDE_AUTO then
    usize_mul (usize_mul (get_plane_mask stride_spec i) (get_plane_spec width stride_spec i))
      byte_count
  else strides.getD i STRIDE_AUTO

/-- Net effect of the per-plane sizing loop: indices `0..last_plane` receive
the computed sizes, later entries of `buffers_size` are kept. -/
def set_plane_sizes (buffers_size : List Nat) (size : Nat → Nat) (last_plane : Nat) : List Nat :=
  ((List.range (last_plane + 1)).map size) ++ buffers_size.drop (last_plane + 1)

/-- Rust `get_buffers_size`; the returned pair is (status, final contents of the
`buffers_size` slice); `none` marks the panic on an out-of-range ordinal. -/
def get_buffers_size (pixel_format width height last_plane : Nat)
    (strides buffers_size : List Nat) : Option (Bool × List Nat) :=
  if MAX_NUMBER_OF_PLANES ≤ last_plane ∨ strides.length ≤ last_plane ∨
      buffers_size.length ≤ last_plane then
    some (false, buffers_size)
  else
    match PF_SPECS[pixel_format]?, STRIDE_SPECS[pixel_format]?, HEIGHT_SPECS[pixel_format]? with
    | some pf_spec, some stride_spec, some height_spec =>
      let byte_count := get_pf_byte_count pf_spec
      let stride : Nat → Nat := compute_stride stride_spec byte_count width strides
      if last_plane = 0 then
        some (true, buffers_size.set 0 (usize_add
          (usize_add (usize_mul (stride 0) (get_plane_spec height height_spec 0))
                     (usize_mul (stride 1) (get_plane_spec height height_spec 1)))
          (usize_add (usize_mul (stride 2) (get_plane_spec height height_spec 2))
                     (usize_mul (stride 3) (get_plane_spec height height_spec 3)))))
      else
        some (true, set_plane_sizes buffers_size
          (fun i => usize_mul (stride i) (get_plane_spec height height_spec i)) last_plane)
    | _, _, _ => none

/-- Rust `are_planes_compatible`; `none` marks the panic on an out-of-range ordinal. -/
def are_planes_compatible (pixel_format num_planes : Nat) : Option Bool :=
  let last_plane := wrapping_sub32 num_planes 1
  match PF_SPECS[pixel_format]? with
  | none => none
  | some spec =>
    some (wrapping_mul32 last_plane (wrapping_sub32 last_plane (get_pf_planes spec)) == 0)

/-- The packed format descriptor of a valid format ordinal. -/
def pf_spec_of (pf : Nat) : Nat := PF_SPECS.getD pf 0

/-- The stride descriptor of a valid format ordinal. -/
def stride_spec_of (pf : Nat) : Nat := STRIDE_SPECS.getD pf 0

/-- The height descriptor of a valid format ordinal. -/
def height_spec_of (pf : Nat) : Nat := HEIGHT_SPECS.getD pf 0

/-- The mandated last-plane index of a format: its plane count minus one. -/
def mandated_last_plane (pf : Nat) : Nat := get_pf_planes (pf_spec_of pf)

/-- The fixed plane count of a format. -/
def plane_count (pf : Nat) : Nat := mandated_last_plane pf + 1

/-- Final contents of the `buffers_size` slice after a call (panic mapped to
the empty list, never hit under a valid ordinal). -/
def buffers_of (r : Option (Bool × List Nat)) : List Nat := (r.getD (false, [])).2

/-- Status bit returned by a call. -/
def status_of (r : Option (Bool × List Nat)) : Option Bool := r.map Prod.fst

/-- Effective stride of a plane slot as the specification words it: if the
caller's entry is `STRIDE_AUTO`, derive
`(plane present ? 1 : 0) * (width >> subsampling_shift) * bytes_per_sample`,
where presence is the sentinel check on the stride descriptor; otherwise the
caller-supplied value.  Stated for comparison with `compute_stride`. -/
def spec_effective_stride (pf width : Nat) (strides : List Nat) (i : Nat) : Nat :=
  if strides.getD i STRIDE_AUTO = STRIDE_AUTO then
    (if get_plane_value (stride_spec_of pf) i = I_P then 0 else 1) *
      wrapping_shr32 width (get_plane_value (stride_spec_of pf) i) *
      get_pf_byte_count (pf_spec_of pf)
  else strides.getD i STRIDE_AUTO

/-- Plane size of slot i as the specification words it:
`stride[i] * (height >> height_shift[i])` in `usize` arithmetic. -/
def spec_plane_size (pf width height : Nat) (strides : List Nat) (i : Nat) : Nat :=
  usize_mul (spec_effective_stride pf width strides i)
    (wrapping_shr32 height (get_plane_value (height_spec_of pf) i))

/-- Effective stride of a plane slot as `get_buffers_size` computes it, with
the descriptors of a valid format ordinal filled in. -/
def code_stride (pf w : Nat) (strides : List Nat) (i : Nat) : Nat :=
  compute_stride (stride_spec_of pf) (get_pf_byte_count (pf_spec_of pf)) w strides i

/-- Plane size of a slot as `get_buffers_size` computes it. -/
def code_size (pf w h : Nat) (strides : List Nat) (i : Nat) : Nat :=
  usize_mul (code_stride pf w strides i) (get_plane_spec h (height_spec_of pf) i)

lemma or_eq_zero_iff (a b : Nat) : a ||| b = 0 ↔ a = 0 ∧ b = 0 := by
  constructor
  · intro hab
    constructor <;> apply Nat.eq_of_testBit_eq <;> intro i <;>
      · have hi := congrArg (fun t => Nat.testBit t i) hab
        simp only [Nat.testBit_or, Nat.zero_testBit, Bool.or_eq_false_iff] at hi
        simp [hi.1, hi.2]
  · rintro ⟨rfl, rfl⟩
    rfl

lemma and_flag_eq_zero_iff (w flag : Nat) (hf : flag = 0 ∨ flag = 1) :
    w &&& flag = 0 ↔ (flag = 1 → 2 ∣ w) := by
  rcases hf with rfl | rfl
  · simp
  · rw [Nat.and_one_is_mod]
    constructor
    · intro hw _
      omega
    · intro hw
      have := hw rfl
      omega

lemma mul_mod_right_arg (a b n : Nat) : a * (b % n) % n = a * b % n := by
  conv_lhs => rw [Nat.mul_mod, Nat.mod_mod_of_dvd b dvd_rfl]
  rw [← Nat.mul_mod]

lemma wrap_root_iff (lp m : Nat) (hm : m < U32) :
    wrapping_mul32 lp (wrapping_sub32 lp m) = 0 ↔
      (2 ^ 32 : ℤ) ∣ (lp : ℤ) * ((lp : ℤ) - (m : ℤ)) := by
  have hmle : m ≤ lp + U32 := le_trans (Nat.le_of_lt hm) (Nat.le_add_left _ _)
  have h1 : wrapping_mul32 lp (wrapping_sub32 lp m) = lp * (lp + U32 - m) % U32 := by
    unfold wrapping_mul32 wrapping_sub32
    rw [Nat.mod_eq_of_lt hm, mul_mod_right_arg]
  rw [h1, ← Nat.dvd_iff_mod_eq_zero, ← Int.natCast_dvd_natCast, Nat.cast_mul,
    Nat.cast_sub hmle, Nat.cast_add]
  have hU : ((U32 : Nat) : ℤ) = 2 ^ 32 := by norm_num [U32]
  rw [hU]
  have hsplit : (lp : ℤ) * ((lp : ℤ) + 2 ^ 32 - (m : ℤ)) =
      (lp : ℤ) * ((lp : ℤ) - (m : ℤ)) + 2 ^ 32 * (lp : ℤ) := by ring
  rw [hsplit]
  generalize (lp : ℤ) * ((lp : ℤ) - (m : ℤ)) = A
  omega

lemma pf_specs_getElem (pf : Nat) (h : pf < 13) : PF_SPECS[pf]? = some (pf_spec_of pf) := by
  have hl : pf < PF_SPECS.length := by
    simpa using h
  rw [List.getElem?_eq_getElem hl]
  unfold pf_spec_of
  rw [List.getD_eq_getElem?_getD, List.getElem?_eq_getElem hl]
  rfl

lemma stride_specs_getElem (pf : Nat) (h : pf < 13) :
    STRIDE_SPECS[pf]? = some (stride_spec_of pf) := by
  have hl : pf < STRIDE_SPECS.length := by
    simpa using h
  rw [List.getElem?_eq_getElem hl]
  unfold stride_spec_of
  rw [List.getD_eq_getElem?_getD, List.getElem?_eq_getElem hl]
  rfl

lemma height_specs_getElem (pf : Nat) (h : pf < 13) :
    HEIGHT_SPECS[pf]? = some (height_spec_of pf) := by
  have hl : pf < HEIGHT_SPECS.length := by
    simpa using h
  rw [List.getElem?_eq_getElem hl]
  unfold height_spec_of
  rw [List.getD_eq_getElem?_getD, List.getElem?_eq_getElem hl]
  rfl

lemma is_compatible_eq (pf w h lp : Nat) (hpf : pf < 13) :
    is_compatible pf w h lp =
      some (((w &&& get_pf_width (pf_spec_of pf)) |||
        ((h &&& get_pf_height (pf_spec_of pf)) |||
         wrapping_mul32 lp (wrapping_sub32 lp (mandated_last_plane pf)))) == 0) := by
  unfold is_compatible
  rw [pf_specs_getElem pf hpf]
  rfl

lemma is_compatible_true_iff (pf w h lp : Nat) (hpf : pf < 13) :
    is_compatible pf w h lp = some true ↔
      (w &&& get_pf_width (pf_spec_of pf) = 0 ∧ h &&& get_pf_height (pf_spec_of pf) = 0 ∧
       wrapping_mul32 lp (wrapping_sub32 lp (mandated_last_plane pf)) = 0) := by
  rw [is_compatible_eq pf w h lp hpf]
  simp only [Option.some.injEq, beq_iff_eq, or_eq_zero_iff]

lemma flag_facts : ∀ pf, pf < 13 →
    (get_pf_width (pf_spec_of pf) = 0 ∨ get_pf_width (pf_spec_of pf) = 1) ∧
    (get_pf_height (pf_spec_of pf) = 0 ∨ get_pf_height (pf_spec_of pf) = 1) ∧
    mandated_last_plane pf < U32 := by
  decide

/-- C1 (counterexample): for I420 (ordinal 9) with even width and height,
`is_compatible` accepts `last_plane = 0` although the mandated last-plane
index is 2, refuting the claimed iff. -/
theorem c1_counterexample :
    is_compatible 9 2 2 0 = some true ∧ mandated_last_plane 9 = 2 ∧ (0 : Nat) ≠ 2 := by
  decide

/-- C1 (amended): for every valid format ordinal, `is_compatible` returns true
iff the parity constraints hold AND `2 ^ 32` divides
`last_plane * (last_plane - mandated_last_plane)` over the integers (so
`last_plane = 0`, the mandated index, and the 32-bit wraparound roots all
pass), rather than `last_plane` exactly equalling the mandated index. -/
theorem c1_parity_and_wrap_root (pf w h lp : Nat) (hpf : pf < 13) :
    is_compatible pf w h lp = some true ↔
      ((get_pf_width (pf_spec_of pf) = 1 → 2 ∣ w) ∧
       (get_pf_height (pf_spec_of pf) = 1 → 2 ∣ h) ∧
       (2 ^ 32 : ℤ) ∣ (lp : ℤ) * ((lp : ℤ) - (mandated_last_plane pf : ℤ))) := by
  rw [is_compatible_true_iff pf w h lp hpf]
  have hf := flag_facts pf hpf
  rw [and_flag_eq_zero_iff w _ hf.1, and_flag_eq_zero_iff h _ hf.2.1,
    wrap_root_iff lp _ hf.2.2]

/-- C1 (witness): the amended equivalence instantiated at I420, width 2,
height 2, last plane 2. -/
theorem c1_witness : is_compatible 9 2 2 2 = some true :=
  (c1_parity_and_wrap_root 9 2 2 2 (by decide)).mpr (by decide)

/-- C2 (counterexample): `are_planes_compatible` accepts `num_planes = 1` for
I420 although its fixed plane count is 3, refuting the claimed iff. -/
theorem c2_counterexample :
    are_planes_compatible 9 1 = some true ∧ plane_count 9 = 3 ∧ (1 : Nat) ≠ 3 := by
  decide

/-- C2 (amended): for every valid format ordinal and every
`n ≤ MAX_NUMBER_OF_PLANES`, `are_planes_compatible` returns true iff `n = 1`
(single combined buffer) or `n` equals the format's fixed plane count, and
false for every other such `n`. -/
theorem c2_planes_or_one (pf n : Nat) (hpf : pf < 13) (hn : n ≤ MAX_NUMBER_OF_PLANES) :
    are_planes_compatible pf n = some true ↔ (n = 1 ∨ n = plane_count pf) := by
  have hn4 : n ≤ 4 := hn
  interval_cases pf <;> interval_cases n <;> decide

/-- C2 (witness): the amended equivalence instantiated at Nv12 with its plane
count 2. -/
theorem c2_witness : are_planes_compatible 10 2 = some true :=
  (c2_planes_or_one 10 2 (by decide) (by decide)).mpr (by decide)

/-- C9: the plane checks are only equalities modulo `2 ^ 32`: for every
3-plane format, `are_planes_compatible` accepts the out-of-range count
`2 ^ 31 + 1`, and `is_compatible` passes the plane check at
`last_plane = 2 ^ 31`. -/
theorem c9_wraparound (pf : Nat) (hpf : pf < 13) (h3 : plane_count pf = 3) :
    MAX_NUMBER_OF_PLANES < 2 ^ 31 + 1 ∧
    are_planes_compatible pf (2 ^ 31 + 1) = some true ∧
    is_compatible pf 0 0 (2 ^ 31) = some true := by
  interval_cases pf <;> revert h3 <;> decide

/-- C9 (witness): the wraparound acceptance instantiated at I420. -/
theorem c9_witness :
    MAX_NUMBER_OF_PLANES < 2 ^ 31 + 1 ∧
    are_planes_compatible 9 (2 ^ 31 + 1) = some true ∧
    is_compatible 9 0 0 (2 ^ 31) = some true :=
  c9_wraparound 9 (by decide) (by decide)

/-- C6: the subsampled formats I420 (9), Nv12 (10) and P010 (12) are rejected
by `is_compatible` at every odd width or odd height; the unsubsampled formats
I444 (7), P410 (11) and all packed formats (0..6) accept every positive width
and height at the mandated last-plane index. -/
theorem c6_parity (w h lp : Nat) :
    (∀ pf, pf = 9 ∨ pf = 10 ∨ pf = 12 → Odd w ∨ Odd h →
      is_compatible pf w h lp = some false) ∧
    (∀ pf, pf = 0 ∨ pf = 1 ∨ pf = 2 ∨ pf = 3 ∨ pf = 4 ∨ pf = 5 ∨ pf = 6 ∨
        pf = 7 ∨ pf = 11 →
      0 < w → 0 < h → is_compatible pf w h (mandated_last_plane pf) = some true) := by
  constructor
  · intro pf hpf hodd
    have hpf13 : pf < 13 := by rcases hpf with rfl | rfl | rfl <;> decide
    have hw1 : get_pf_width (pf_spec_of pf) = 1 ∧ get_pf_height (pf_spec_of pf) = 1 := by
      rcases hpf with rfl | rfl | rfl <;> exact ⟨by decide, by decide⟩
    rw [is_compatible_eq pf w h lp hpf13]
    simp only [Option.some.injEq]
    rw [beq_eq_false_iff_ne]
    intro h0
    obtain ⟨ha, hrest⟩ := (or_eq_zero_iff _ _).mp h0
    obtain ⟨hb, -⟩ := (or_eq_zero_iff _ _).mp hrest
    rw [hw1.1, Nat.and_one_is_mod] at ha
    rw [hw1.2, Nat.and_one_is_mod] at hb
    rcases hodd with ho | ho <;> rw [Nat.odd_iff] at ho <;> omega
  · intro pf hpf _hw _hh
    have hpf13 : pf < 13 := by
      rcases hpf with rfl | rfl | rfl | rfl | rfl | rfl | rfl | rfl | rfl <;> decide
    have hflags : get_pf_width (pf_spec_of pf) = 0 ∧ get_pf_height (pf_spec_of pf) = 0 := by
      rcases hpf with rfl | rfl | rfl | rfl | rfl | rfl | rfl | rfl | rfl <;>
        exact ⟨by decide, by decide⟩
    rw [is_compatible_true_iff pf w h _ hpf13]
    refine ⟨?_, ?_, ?_⟩
    · rw [hflags.1, Nat.and_zero]
    · rw [hflags.2, Nat.and_zero]
    · have hm : mandated_last_plane pf < U32 := (flag_facts pf hpf13).2.2
      unfold wrapping_mul32 wrapping_sub32
      rw [Nat.mod_eq_of_lt hm]
      have hz : (mandated_last_plane pf + U32 - mandated_last_plane pf) % U32 = 0 := by
        have he : mandated_last_plane pf + U32 - mandated_last_plane pf = U32 := by omega
        rw [he, Nat.mod_self]
      rw [hz, Nat.mul_zero, Nat.zero_mod]

/-- C6 (witness): I420 rejects odd width 3; I444 accepts 5 by 3 at its
mandated last plane. -/
theorem c6_witness :
    is_compatible 9 3 4 2 = some false ∧
    is_compatible 7 5 3 (mandated_last_plane 7) = some true :=
  ⟨(c6_parity 3 4 2).1 9 (Or.inl rfl) (Or.inl ⟨1, rfl⟩),
   (c6_parity 5 3 0).2 7 (by decide) (by decide) (by decide)⟩

lemma get_buffers_size_eq (pf w h lp : Nat) (strides bs : List Nat) (hpf : pf < 13) :
    get_buffers_size pf w h lp strides bs =
      if MAX_NUMBER_OF_PLANES ≤ lp ∨ strides.length ≤ lp ∨ bs.length ≤ lp then
        some (false, bs)
      else if lp = 0 then
        some (true, bs.set 0 (usize_add
          (usize_add (code_size pf w h strides 0) (code_size pf w h strides 1))
          (usize_add (code_size pf w h strides 2) (code_size pf w h strides 3))))
      else
        some (true, set_plane_sizes bs (code_size pf w h strides) lp) := by
  unfold get_buffers_size
  rw [pf_specs_getElem pf hpf, stride_specs_getElem pf hpf, height_specs_getElem pf hpf]
  rfl

/-- C3: `get_buffers_size` returns false exactly when `last_plane` is at least
`MAX_NUMBER_OF_PLANES` or at least the length of either slice, leaving
`buffers_size` untouched in that case, and returns true otherwise. -/
theorem c3_error_exactly (pf w h lp : Nat) (strides bs : List Nat) (hpf : pf < 13) :
    (get_buffers_size pf w h lp strides bs = some (false, bs) ↔
      (MAX_NUMBER_OF_PLANES ≤ lp ∨ strides.length ≤ lp ∨ bs.length ≤ lp)) ∧
    (¬(MAX_NUMBER_OF_PLANES ≤ lp ∨ strides.length ≤ lp ∨ bs.length ≤ lp) →
      status_of (get_buffers_size pf w h lp strides bs) = some true) := by
  rw [get_buffers_size_eq pf w h lp strides bs hpf]
  by_cases hc : MAX_NUMBER_OF_PLANES ≤ lp ∨ strides.length ≤ lp ∨ bs.length ≤ lp
  · rw [if_pos hc]
    exact ⟨⟨fun _ => hc, fun _ => rfl⟩, fun hn => absurd hc hn⟩
  · rw [if_neg hc]
    refine ⟨⟨fun he => ?_, fun hcc => absurd hcc hc⟩, fun _ => ?_⟩
    · by_cases h0 : lp = 0 <;> simp [h0] at he
    · by_cases h0 : lp = 0 <;> simp [status_of, h0]

/-- C3 (witness): an undersized `buffers_size` slice is reported as false with
the slice untouched, while valid bounds yield true. -/
theorem c3_witness :
    get_buffers_size 9 4 4 2 [0, 0, 0] [0] = some (false, [0]) ∧
    status_of (get_buffers_size 9 4 4 2 [0, 0, 0] [0, 0, 0]) = some true :=
  ⟨(c3_error_exactly 9 4 4 2 [0, 0, 0] [0] (by decide)).1.mpr (by decide),
   (c3_error_exactly 9 4 4 2 [0, 0, 0] [0, 0, 0] (by decide)).2 (by decide)⟩

/-- C8: under a valid format ordinal none of the three engine functions can
panic: every embedded call returns a value for all remaining arguments. -/
theorem c8_no_panic (pf : Nat) (hpf : pf < 13) :
    ∀ w h lp np : Nat, ∀ strides bs : List Nat,
      (is_compatible pf w h lp).isSome ∧ (are_planes_compatible pf np).isSome ∧
      (get_buffers_size pf w h lp strides bs).isSome := by
  intro w h lp np strides bs
  refine ⟨?_, ?_, ?_⟩
  · rw [is_compatible_eq pf w h lp hpf]
    rfl
  · unfold are_planes_compatible
    rw [pf_specs_getElem pf hpf]
    rfl
  · rw [get_buffers_size_eq pf w h lp strides bs hpf]
    by_cases hc : MAX_NUMBER_OF_PLANES ≤ lp ∨ strides.length ≤ lp ∨ bs.length ≤ lp
    · rw [if_pos hc]
      rfl
    · rw [if_neg hc]
      by_cases h0 : lp = 0
      · rw [if_pos h0]
        rfl
      · rw [if_neg h0]
        rfl

/-- C8 (witness): the no-panic guarantee instantiated at Argb with arbitrary
out-of-range remaining arguments. -/
theorem c8_witness :
    (is_compatible 0 5 7 9).isSome ∧ (are_planes_compatible 0 11).isSome ∧
    (get_buffers_size 0 5 7 9 [] []).isSome :=
  c8_no_panic 0 (by decide) 5 7 9 11 [] []

lemma table_facts : ∀ pf, pf < 13 →
    (mandated_last_plane pf = 0 ∨ mandated_last_plane pf = 1 ∨ mandated_last_plane pf = 2) ∧
    (∀ j, j < 4 → mandated_last_plane pf < j → get_plane_mask (stride_spec_of pf) j = 0) ∧
    get_pf_byte_count (pf_spec_of pf) ≤ 4 := by
  decide

lemma usize_add4_mod (a b c d : Nat) :
    usize_add (usize_add a b) (usize_add c d) = (a + b + c + d) % U64 := by
  unfold usize_add
  rw [← Nat.add_mod]
  congr 1
  omega

lemma code_size_zero_of_absent (pf w h j : Nat) (hj : j < 4)
    (hmask : get_plane_mask (stride_spec_of pf) j = 0) :
    code_size pf w h DEFAULT_STRIDES j = 0 := by
  have hg : DEFAULT_STRIDES.getD j STRIDE_AUTO = STRIDE_AUTO := by
    interval_cases j <;> rfl
  unfold code_size code_stride compute_stride
  rw [if_pos (Or.inr hg), hmask]
  simp [usize_mul]

/-- C4: for every valid format ordinal and dimensions satisfying its parity
constraints, with all-auto strides the single total of combined mode
(`last_plane = 0`) equals the `usize` sum of the per-plane sizes produced
with `last_plane = plane_count - 1`. -/
theorem c4_combined_is_sum (pf w h : Nat) (hpf : pf < 13)
    (_hwp : get_pf_width (pf_spec_of pf) = 1 → 2 ∣ w)
    (_hhp : get_pf_height (pf_spec_of pf) = 1 → 2 ∣ h) :
    (buffers_of (get_buffers_size pf w h 0 DEFAULT_STRIDES [0, 0, 0, 0])).getD 0 0 =
      (buffers_of (get_buffers_size pf w h (mandated_last_plane pf) DEFAULT_STRIDES
        [0, 0, 0, 0])).sum % U64 := by
  have hT := table_facts pf hpf
  have hcomb : get_buffers_size pf w h 0 DEFAULT_STRIDES [0, 0, 0, 0] =
      some (true, [usize_add
        (usize_add (code_size pf w h DEFAULT_STRIDES 0) (code_size pf w h DEFAULT_STRIDES 1))
        (usize_add (code_size pf w h DEFAULT_STRIDES 2) (code_size pf w h DEFAULT_STRIDES 3)),
        0, 0, 0]) := by
    rw [get_buffers_size_eq pf w h 0 DEFAULT_STRIDES [0, 0, 0, 0] hpf]
    rfl
  rcases hT.1 with hm | hm | hm
  · rw [hm, hcomb]
    simp only [buffers_of, Option.getD_some, List.getD_cons_zero, List.sum_cons,
      List.sum_nil, usize_add4_mod, Nat.add_zero]
    rw [Nat.mod_mod_of_dvd _ dvd_rfl]
  · have hper : get_buffers_size pf w h 1 DEFAULT_STRIDES [0, 0, 0, 0] =
        some (true, [code_size pf w h DEFAULT_STRIDES 0, code_size pf w h DEFAULT_STRIDES 1,
          0, 0]) := by
      rw [get_buffers_size_eq pf w h 1 DEFAULT_STRIDES [0, 0, 0, 0] hpf]
      rfl
    have hz2 : code_size pf w h DEFAULT_STRIDES 2 = 0 :=
      code_size_zero_of_absent pf w h 2 (by omega) (hT.2.1 2 (by omega) (by omega))
    have hz3 : code_size pf w h DEFAULT_STRIDES 3 = 0 :=
      code_size_zero_of_absent pf w h 3 (by omega) (hT.2.1 3 (by omega) (by omega))
    rw [hm, hcomb, hper, hz2, hz3]
    simp only [buffers_of, Option.getD_some, List.getD_cons_zero, List.sum_cons,
      List.sum_nil, usize_add4_mod, Nat.add_zero]
  · have hper : get_buffers_size pf w h 2 DEFAULT_STRIDES [0, 0, 0, 0] =
        some (true, [code_size pf w h DEFAULT_STRIDES 0, code_size pf w h DEFAULT_STRIDES 1,
          code_size pf w h DEFAULT_STRIDES 2, 0]) := by
      rw [get_buffers_size_eq pf w h 2 DEFAULT_STRIDES [0, 0, 0, 0] hpf]
      rfl
    have hz3 : code_size pf w h DEFAULT_STRIDES 3 = 0 :=
      code_size_zero_of_absent pf w h 3 (by omega) (hT.2.1 3 (by omega) (by omega))
    rw [hm, hcomb, hper, hz3]
    simp only [buffers_of, Option.getD_some, List.getD_cons_zero, List.sum_cons,
      List.sum_nil, usize_add4_mod, Nat.add_zero]
    rw [Nat.add_assoc]

/-- C4 (witness): the combined/per-plane sum identity instantiated at I420,
width 4, height 4. -/
theorem c4_witness :
    (buffers_of (get_buffers_size 9 4 4 0 DEFAULT_STRIDES [0, 0, 0, 0])).getD 0 0 =
      (buffers_of (get_buffers_size 9 4 4 (mandated_last_plane 9) DEFAULT_STRIDES
        [0, 0, 0, 0])).sum % U64 :=
  c4_combined_is_sum 9 4 4 (by decide) (by decide) (by decide)

/-- C5: on success with `1 ≤ last_plane`, the effective strides computed by
`get_buffers_size` are exactly those the spec words (auto slots derive
`present * (width >> subsampling_shift) * bytes_per_sample`, others are the
caller's values), and every written entry is
`stride[i] * (height >> height_shift[i])` in `usize` arithmetic. -/
theorem c5_strides_refine_spec (pf w h lp : Nat) (strides bs : List Nat) (hpf : pf < 13)
    (hw : w < U32) (hlp1 : 1 ≤ lp) (hlp : lp < MAX_NUMBER_OF_PLANES)
    (hs : lp < strides.length) (hb : lp < bs.length) :
    (∀ i, i < MAX_NUMBER_OF_PLANES →
      code_stride pf w strides i = spec_effective_stride pf w strides i) ∧
    get_buffers_size pf w h lp strides bs =
      some (true, set_plane_sizes bs (spec_plane_size pf w h strides) lp) := by
  have hbc := (table_facts pf hpf).2.2
  have hcs : ∀ i, i < MAX_NUMBER_OF_PLANES →
      code_stride pf w strides i = spec_effective_stride pf w strides i := by
    intro i _
    unfold code_stride compute_stride spec_effective_stride
    by_cases hcond : strides.length ≤ i ∨ strides.getD i STRIDE_AUTO = STRIDE_AUTO
    · have hg : strides.getD i STRIDE_AUTO = STRIDE_AUTO := by
        rcases hcond with hlen | hauto
        · rw [List.getD_eq_getElem?_getD, List.getElem?_eq_none hlen]
          rfl
        · exact hauto
      rw [if_pos hcond, if_pos hg]
      unfold get_plane_mask get_plane_spec usize_mul
      have hshr : wrapping_shr32 w (get_plane_value (stride_spec_of pf) i) ≤ w := by
        unfold wrapping_shr32
        rw [Nat.shiftRight_eq_div_pow]
        exact Nat.div_le_self _ _
      set m := (if get_plane_value (stride_spec_of pf) i = I_P then (0 : Nat) else 1) with hmdef
      have hm1 : m ≤ 1 := by
        rw [hmdef]
        split <;> omega
      have hmw : m * wrapping_shr32 w (get_plane_value (stride_spec_of pf) i) ≤ w := by
        calc m * wrapping_shr32 w (get_plane_value (stride_spec_of pf) i)
            ≤ 1 * w := Nat.mul_le_mul hm1 hshr
          _ = w := Nat.one_mul w
      have hU : U32 * 4 ≤ U64 := by norm_num [U32, U64]
      have hlt1 : m * wrapping_shr32 w (get_plane_value (stride_spec_of pf) i) < U64 := by
        have : w < U64 := by omega
        omega
      rw [Nat.mod_eq_of_lt hlt1]
      have hlt2 : m * wrapping_shr32 w (get_plane_value (stride_spec_of pf) i) *
          get_pf_byte_count (pf_spec_of pf) < U64 := by
        have h4 : m * wrapping_shr32 w (get_plane_value (stride_spec_of pf) i) *
            get_pf_byte_count (pf_spec_of pf) ≤ w * 4 :=
          Nat.mul_le_mul hmw hbc
        have hw4 : w * 4 < U32 * 4 := by omega
        omega
      rw [Nat.mod_eq_of_lt hlt2]
    · have hne : ¬ strides.getD i STRIDE_AUTO = STRIDE_AUTO := fun hh => hcond (Or.inr hh)
      rw [if_neg hcond, if_neg hne]
  refine ⟨hcs, ?_⟩
  have hc : ¬(MAX_NUMBER_OF_PLANES ≤ lp ∨ strides.length ≤ lp ∨ bs.length ≤ lp) := by
    push_neg
    exact ⟨hlp, hs, hb⟩
  rw [get_buffers_size_eq pf w h lp strides bs hpf, if_neg hc,
    if_neg (by omega : ¬ lp = 0)]
  have hmaps : set_plane_sizes bs (code_size pf w h strides) lp =
      set_plane_sizes bs (spec_plane_size pf w h strides) lp := by
    unfold set_plane_sizes
    have hm : (List.range (lp + 1)).map (code_size pf w h strides) =
        (List.range (lp + 1)).map (spec_plane_size pf w h strides) := by
      apply List.map_congr_left
      intro i hi
      rw [List.mem_range] at hi
      unfold code_size spec_plane_size get_plane_spec
      rw [hcs i (by omega)]
    rw [hm]
  rw [hmaps]

/-- C5 (witness): the stride and size refinement instantiated at Nv12,
width 4, height 4, last plane 1, all-auto strides. -/
theorem c5_witness :
    (∀ i, i < MAX_NUMBER_OF_PLANES →
      code_stride 10 4 DEFAULT_STRIDES i = spec_effective_stride 10 4 DEFAULT_STRIDES i) ∧
    get_buffers_size 10 4 4 1 DEFAULT_STRIDES [0, 0, 0, 0] =
      some (true, set_plane_sizes [0, 0, 0, 0] (spec_plane_size 10 4 4 DEFAULT_STRIDES) 1) :=
  c5_strides_refine_spec 10 4 4 1 DEFAULT_STRIDES [0, 0, 0, 0] (by decide) (by decide)
    (by decide) (by decide) (by decide) (by decide)

/-- C10: on success `get_buffers_size` writes only indices `0..last_plane`,
keeping all later `buffers_size` entries, and stride slots beyond the end of
the `strides` slice behave exactly as `STRIDE_AUTO` entries. -/
theorem c10_frame (pf w h lp : Nat) (strides bs : List Nat) (hpf : pf < 13)
    (hlp : lp < MAX_NUMBER_OF_PLANES) (hs : lp < strides.length) (hb : lp < bs.length) :
    (∀ j, lp < j →
      (buffers_of (get_buffers_size pf w h lp strides bs)).getD j 0 = bs.getD j 0) ∧
    (∀ k, get_buffers_size pf w h lp (strides ++ List.replicate k 0) bs =
      get_buffers_size pf w h lp strides bs) := by
  have hc : ¬(MAX_NUMBER_OF_PLANES ≤ lp ∨ strides.length ≤ lp ∨ bs.length ≤ lp) := by
    push_neg
    exact ⟨hlp, hs, hb⟩
  constructor
  · intro j hj
    rw [get_buffers_size_eq pf w h lp strides bs hpf, if_neg hc]
    by_cases h0 : lp = 0
    · subst h0
      rw [if_pos rfl]
      show (bs.set 0 _).getD j 0 = bs.getD j 0
      rw [List.getD_eq_getElem?_getD, List.getElem?_set_ne (by omega),
        ← List.getD_eq_getElem?_getD]
    · rw [if_neg h0]
      show (set_plane_sizes bs (code_size pf w h strides) lp).getD j 0 = bs.getD j 0
      unfold set_plane_sizes
      have hlen : ((List.range (lp + 1)).map (code_size pf w h strides)).length = lp + 1 := by
        simp
      rw [List.getD_eq_getElem?_getD, List.getElem?_append_right (by rw [hlen]; omega), hlen,
        List.getElem?_drop, show lp + 1 + (j - (lp + 1)) = j from by omega,
        ← List.getD_eq_getElem?_getD]
  · intro k
    have hstr : ∀ i, compute_stride (stride_spec_of pf) (get_pf_byte_count (pf_spec_of pf)) w
        (strides ++ List.replicate k 0) i =
        compute_stride (stride_spec_of pf) (get_pf_byte_count (pf_spec_of pf)) w strides i := by
      intro i
      unfold compute_stride
      by_cases hi : i < strides.length
      · have hg : (strides ++ List.replicate k 0).getD i STRIDE_AUTO =
            strides.getD i STRIDE_AUTO := by
          rw [List.getD_eq_getElem?_getD, List.getElem?_append_left hi,
            ← List.getD_eq_getElem?_getD]
        rw [hg]
        by_cases ha : strides.getD i STRIDE_AUTO = STRIDE_AUTO
        · rw [if_pos (Or.inr ha), if_pos (Or.inr ha)]
        · have hl1 : ¬ ((strides ++ List.replicate k 0).length ≤ i ∨
              strides.getD i STRIDE_AUTO = STRIDE_AUTO) := by
            rw [List.length_append]
            push_neg
            exact ⟨by omega, ha⟩
          have hl2 : ¬ (strides.length ≤ i ∨ strides.getD i STRIDE_AUTO = STRIDE_AUTO) := by
            push_neg
            exact ⟨by omega, ha⟩
          rw [if_neg hl1, if_neg hl2]
      · have hg : (strides ++ List.replicate k 0).getD i STRIDE_AUTO = STRIDE_AUTO := by
          by_cases hik : i < strides.length + k
          · rw [List.getD_eq_getElem?_getD, List.getElem?_append_right (by omega),
              List.getElem?_replicate, if_pos (by omega)]
            rfl
          · rw [List.getD_eq_getElem?_getD,
              List.getElem?_eq_none (by rw [List.length_append, List.length_replicate]; omega)]
            rfl
        rw [if_pos (Or.inr hg), if_pos (Or.inl (by omega))]
    have hfun : code_size pf w h (strides ++ List.replicate k 0) = code_size pf w h strides := by
      funext i
      unfold code_size code_stride
      rw [hstr i]
    have hcl : ¬(MAX_NUMBER_OF_PLANES ≤ lp ∨ (strides ++ List.replicate k 0).length ≤ lp ∨
        bs.length ≤ lp) := by
      rw [List.length_append]
      push_neg
      exact ⟨hlp, by omega, hb⟩
    rw [get_buffers_size_eq pf w h lp (strides ++ List.replicate k 0) bs hpf,
      get_buffers_size_eq pf w h lp strides bs hpf, if_neg hcl, if_neg hc, hfun]

/-- C10 (witness): the frame and padding properties instantiated at I420 with
a 3-entry stride slice. -/
theorem c10_witness :
    (∀ j, 2 < j →
      (buffers_of (get_buffers_size 9 4 4 2 [0, 0, 0] [0, 0, 0, 0])).getD j 0 =
        ([0, 0, 0, 0] : List Nat).getD j 0) ∧
    (∀ k, get_buffers_size 9 4 4 2 ([0, 0, 0] ++ List.replicate k 0) [0, 0, 0, 0] =
      get_buffers_size 9 4 4 2 [0, 0, 0] [0, 0, 0, 0]) :=
  c10_frame 9 4 4 2 [0, 0, 0] [0, 0, 0, 0] (by decide) (by decide) (by decide) (by decide)

/-- C7: with all-auto strides at width 4, height 4: Bgra in combined mode
yields 64; Nv12 per-plane yields 16 and 8; I420 per-plane yields 16, 4, 4 and
combined mode yields 24. -/
theorem c7_concrete_sizes :
    get_buffers_size 1 4 4 0 DEFAULT_STRIDES [0, 0, 0, 0] = some (true, [64, 0, 0, 0]) ∧
    get_buffers_size 10 4 4 1 DEFAULT_STRIDES [0, 0, 0, 0] = some (true, [16, 8, 0, 0]) ∧
    get_buffers_size 9 4 4 2 DEFAULT_STRIDES [0, 0, 0, 0] = some (true, [16, 4, 4, 0]) ∧
    get_buffers_size 9 4 4 0 DEFAULT_STRIDES [0, 0, 0, 0] = some (true, [24, 0, 0, 0]) := by
  decide

end DcvColor
